/-
  Verification of the gh-skyline repository: a shallow embedding of the
  filename generation, year-range parsing, contribution-grid conversion,
  skyline orchestration and (spec-modelled) geometry pipeline, together
  with theorems settling the frozen specification claims.

  Conventions:
  - Go strings are Lean `String`; Go `int` is Lean `Int`; Go `float64`
    values that the claims compare against exact constants are `ℚ`.
  - Fallible Go functions return `Except`/`Option`.
  - Functions whose Go implementation is not in the available sources are
    modelled from the specification and say so in their doc comment.
-/
import Mathlib

/-! ## Go standard-library helpers -/

/-- Error kinds produced by Go's `strconv.Atoi` (`ErrSyntax` / `ErrRange`). -/
inductive StrconvErr where
  | invalidSyntax
  | outOfRange
deriving DecidableEq, Repr

/-- Go's `strconv.Atoi`: optional sign, one or more decimal digits, value
within the 64-bit signed range; anything else is a syntax error. -/
def goAtoi (s : String) : Except StrconvErr Int :=
  let (sign, digits) :=
    match s.toList with
    | '-' :: rest => ((-1 : Int), rest)
    | '+' :: rest => ((1 : Int), rest)
    | l => ((1 : Int), l)
  if digits.isEmpty then .error .invalidSyntax
  else if digits.all Char.isDigit then
    let n : Nat := digits.foldl (fun acc c => 10 * acc + (c.toNat - 48)) 0
    let v : Int := sign * (n : Int)
    if v < -(2 ^ 63) ∨ v > 2 ^ 63 - 1 then .error .outOfRange else .ok v
  else .error .invalidSyntax

/-- Go's `strings.Contains(s, sub)`. For a non-empty needle, `s.splitOn sub`
has more than one piece exactly when `sub` occurs in `s`. -/
def goContains (s sub : String) : Bool :=
  if sub.isEmpty then true else (s.splitOn sub).length > 1

/-- Go's `strings.Trim(s, cutset)` for a single-character cutset: remove the
character from both ends. -/
def goTrimChar (s : String) (c : Char) : String :=
  String.mk (((s.toList.dropWhile (· == c)).reverse.dropWhile (· == c)).reverse)

/-- Left-pad a string with `'0'` up to width `w` (the digits part of Go's
`%0Nd` formatting). -/
def padZeros (w : Nat) (s : String) : String :=
  if s.length < w then String.mk (List.replicate (w - s.length) '0') ++ s else s

/-- Go's `fmt.Sprintf("%0Nd", i)`: zero-padded decimal, the sign counting
towards the width. -/
def goPad0 (w : Nat) (i : Int) : String :=
  if i < 0 then "-" ++ padZeros (w - 1) (toString (-i)) else padZeros w (toString i)

/-! ## Go dates (`time.Time` restricted to its calendar date) -/

/-- The calendar-date part of a Go `time.Time`. -/
structure GoDate where
  year : Int
  month : Int
  day : Int
deriving DecidableEq, Repr

/-- Gregorian leap-year test, as in Go's `time` package. -/
def isLeapYear (y : Int) : Bool := (y % 4 == 0 && y % 100 != 0) || y % 400 == 0

/-- Days in a month, as in Go's `time` package. -/
def daysInMonth (y m : Int) : Int :=
  if m = 2 then (if isLeapYear y then 29 else 28)
  else if m = 4 ∨ m = 6 ∨ m = 9 ∨ m = 11 then 30
  else 31

/-- Go's `t.AddDate(0, dm, 0)`: shift by `dm` months and normalize. A day
that overflows the resulting month rolls into the following month (for
in-range days, at most one roll is needed, and a month with fewer than 31
days is never December, so the year is unaffected by the roll). -/
def goAddDateMonths (d : GoDate) (dm : Int) : GoDate :=
  let total := d.year * 12 + (d.month - 1) + dm
  let y := Int.fdiv total 12
  let m := total - 12 * y + 1
  let dim := daysInMonth y m
  if d.day > dim then { year := y, month := m + 1, day := d.day - dim }
  else { year := y, month := m, day := d.day }

/-- Go's `time.Parse("2006-01-02", s)`: exactly `YYYY-MM-DD` with decimal
digits, month in 1..12 and day valid for the month. -/
def goParseDateISO (s : String) : Option GoDate :=
  match s.toList with
  | [y1, y2, y3, y4, '-', m1, m2, '-', d1, d2] =>
    if ([y1, y2, y3, y4, m1, m2, d1, d2].all Char.isDigit) then
      let num := fun (cs : List Char) =>
        ((cs.foldl (fun (acc : Nat) c => 10 * acc + (c.toNat - 48)) 0 : Nat) : Int)
      let y := num [y1, y2, y3, y4]
      let m := num [m1, m2]
      let d := num [d1, d2]
      if 1 ≤ m ∧ m ≤ 12 ∧ 1 ≤ d ∧ d ≤ daysInMonth y m then some ⟨y, m, d⟩ else none
    else none
  | _ => none

/-- Go's `t.Format("2006-01-02")`. -/
def formatDateISO (d : GoDate) : String :=
  goPad0 4 d.year ++ "-" ++ goPad0 2 d.month ++ "-" ++ goPad0 2 d.day

/-- Go's `t1.After(t2)` for a `t1` parsed at midnight against a `t2` whose
clock time is non-negative: strict lexicographic comparison of the dates. -/
def goDateAfter (d1 d2 : GoDate) : Bool :=
  d1.year > d2.year
    || (d1.year == d2.year && (d1.month > d2.month
        || (d1.month == d2.month && d1.day > d2.day)))

/-! ## Year-range parsing: `internal/utils/utils.go` and the legacy `main` package -/

/-- Errors surfaced by the year-range parsing and validation functions.
Both packages build the same errors with the same messages, so one shared
representation is faithful to both. -/
inductive ParseYearErr where
  | invalidYearRangeFormat
  | atoi (input : String) (e : StrconvErr)
  | yearsOutOfRange (lo hi : Int)
  | startAfterEnd
deriving DecidableEq, Repr

/-- `githubLaunchYear`, declared with value 2008 in both `main` and
`internal/utils`. -/
def githubLaunchYear : Int := 2008

/-- `validateYearRange` from `internal/utils/utils.go` (lines 45-54),
with `time.Now().Year()` passed in as `currentYear`. -/
def utils_validateYearRange (startYear endYear currentYear : Int) : Option ParseYearErr :=
  if startYear < githubLaunchYear ∨ endYear > currentYear then
    some (.yearsOutOfRange githubLaunchYear currentYear)
  else if startYear > endYear then some .startAfterEnd
  else none

/-- `ParseYearRange` from `internal/utils/utils.go` (lines 18-40),
with `time.Now().Year()` passed in as `currentYear`. -/
def utils_ParseYearRange (yearRange : String) (currentYear : Int) :
    Except ParseYearErr (Int × Int) :=
  if yearRange.contains '-' then
    match yearRange.splitOn "-" with
    | [p0, p1] =>
      match goAtoi p0 with
      | .error e => .error (.atoi p0 e)
      | .ok startYear =>
        match goAtoi p1 with
        | .error e => .error (.atoi p1 e)
        | .ok endYear =>
          match utils_validateYearRange startYear endYear currentYear with
          | some e => .error e
          | none => .ok (startYear, endYear)
    | _ => .error .invalidYearRangeFormat
  else
    match goAtoi yearRange with
    | .error e => .error (.atoi yearRange e)
    | .ok year =>
      match utils_validateYearRange year year currentYear with
      | some e => .error e
      | none => .ok (year, year)

/-- `validateYearRange` from the legacy `main` package (part_000, lines
367-376), with `time.Now().Year()` passed in as `currentYear`. -/
def main_validateYearRange (startYear endYear currentYear : Int) : Option ParseYearErr :=
  if startYear < githubLaunchYear ∨ endYear > currentYear then
    some (.yearsOutOfRange githubLaunchYear currentYear)
  else if startYear > endYear then some .startAfterEnd
  else none

/-- `parseYearRange` from the legacy `main` package (part_000, lines
340-362), with `time.Now().Year()` passed in as `currentYear`. -/
def main_parseYearRange (yearRange : String) (currentYear : Int) :
    Except ParseYearErr (Int × Int) :=
  if yearRange.contains '-' then
    match yearRange.splitOn "-" with
    | [p0, p1] =>
      match goAtoi p0 with
      | .error e => .error (.atoi p0 e)
      | .ok startYear =>
        match goAtoi p1 with
        | .error e => .error (.atoi p1 e)
        | .ok endYear =>
          match main_validateYearRange startYear endYear currentYear with
          | some e => .error e
          | none => .ok (startYear, endYear)
    | _ => .error .invalidYearRangeFormat
  else
    match goAtoi yearRange with
    | .error e => .error (.atoi yearRange e)
    | .ok year =>
      match main_validateYearRange year year currentYear with
      | some e => .error e
      | none => .ok (year, year)

/-! ## Output filename generation -/

/-- `formatYearRange` from the legacy `main` package (part_000, lines
129-135): `%d` for a single year, `%04d-%02d` (with Go's truncated `%`)
for a range. -/
def main_formatYearRange (startYear endYear : Int) : String :=
  if startYear == endYear then toString startYear
  else goPad0 4 startYear ++ "-" ++ goPad0 2 (Int.tmod endYear 100)

/-- `generateOutputFilename` from the legacy `main` package (part_000,
lines 138-151); the package-level `output` flag is passed explicitly.
`outputFileFormat` is `"%s-%s-github-skyline.stl"`. -/
def main_generateOutputFilename (output user : String) (startYear endYear : Int)
    (startDate endDate : String) : String :=
  if output ≠ "" then
    if !((output.toLower).endsWith ".stl") then output ++ ".stl" else output
  else
    let yearStr := main_formatYearRange startYear endYear
    let yearStr := if startDate ≠ "" ∨ endDate ≠ "" then startDate ++ "-" ++ endDate else yearStr
    user ++ "-" ++ yearStr ++ "-github-skyline.stl"

/-- The YTD end date resolved inside `GenerateOutputFilename`
(`internal/utils/utils.go`, lines 77-83): the parsed `ytdEnd` when it is
non-empty and parses, otherwise `now`. -/
def utilsResolveYtdEnd (ytdEnd : String) (now : GoDate) : GoDate :=
  if ytdEnd ≠ "" then (goParseDateISO ytdEnd).getD now else now

/-- `GenerateOutputFilename` from `internal/utils/utils.go` (lines 66-92),
with `time.Now()` passed in as `now`. `now.AddDate(0,-12,0)` is
`goAddDateMonths now (-12)`. -/
def utils_GenerateOutputFilename (username : String) (startYear endYear : Int)
    (customPath ytdEnd : String) (now : GoDate) : String :=
  if customPath ≠ "" then customPath
  else
    let isYTD := (endYear == now.year) && (startYear == (goAddDateMonths now (-12)).year)
    if isYTD then
      username ++ "-contributions-ytd-" ++ formatDateISO (utilsResolveYtdEnd ytdEnd now) ++ ".stl"
    else if startYear == endYear then
      username ++ "-contributions-" ++ toString startYear ++ ".stl"
    else
      username ++ "-contributions-" ++ toString startYear ++ "-" ++ toString endYear ++ ".stl"

/-! ## Geometry pipeline

The `geometry` package implementation is not among the available sources;
only its tests (part_004) are. The definitions below are therefore
modelled from the specification (§3-§4.5), with the external font
rasterizer and image decoder abstracted as function parameters. -/

/-- Modelled from the spec: `Vector3`, a triple of coordinates used for
both positions and normals (named `Vec3` here because Mathlib already
declares `Vector3`). -/
structure Vec3 where
  x : ℚ
  y : ℚ
  z : ℚ
deriving DecidableEq, Repr

/-- Modelled from the spec: `Triangle`, three vertices in a fixed winding
order plus one normal. -/
structure Triangle where
  normal : Vec3
  v1 : Vec3
  v2 : Vec3
  v3 : Vec3
deriving DecidableEq, Repr

/-- Error kinds of the geometry generators (spec §7): configuration,
font, image-decode and I/O failures. -/
inductive GeomError where
  | configError
  | fontError
  | ioError
deriving DecidableEq, Repr

/-- Modelled from the spec (§4.2): the 12 triangles (2 per face, 6 faces)
of the axis-aligned box `[x, x+w] × [y, y+d] × [z, z+h]`, each face's two
triangles sharing that face's outward unit normal. -/
def boxTriangles (x y z w d h : ℚ) : List Triangle :=
  let p000 : Vec3 := ⟨x, y, z⟩
  let p100 : Vec3 := ⟨x + w, y, z⟩
  let p010 : Vec3 := ⟨x, y + d, z⟩
  let p110 : Vec3 := ⟨x + w, y + d, z⟩
  let p001 : Vec3 := ⟨x, y, z + h⟩
  let p101 : Vec3 := ⟨x + w, y, z + h⟩
  let p011 : Vec3 := ⟨x, y + d, z + h⟩
  let p111 : Vec3 := ⟨x + w, y + d, z + h⟩
  [ ⟨⟨0, 0, -1⟩, p000, p110, p100⟩, ⟨⟨0, 0, -1⟩, p000, p010, p110⟩,
    ⟨⟨0, 0, 1⟩, p001, p101, p111⟩, ⟨⟨0, 0, 1⟩, p001, p111, p011⟩,
    ⟨⟨0, -1, 0⟩, p000, p100, p101⟩, ⟨⟨0, -1, 0⟩, p000, p101, p001⟩,
    ⟨⟨0, 1, 0⟩, p010, p111, p110⟩, ⟨⟨0, 1, 0⟩, p010, p011, p111⟩,
    ⟨⟨-1, 0, 0⟩, p000, p001, p011⟩, ⟨⟨-1, 0, 0⟩, p000, p011, p010⟩,
    ⟨⟨1, 0, 0⟩, p100, p110, p111⟩, ⟨⟨1, 0, 0⟩, p100, p111, p101⟩ ]

/-- Modelled from the spec (§4.2): `createBox` signals an error on
degenerate input instead of emitting degenerate geometry. -/
def createBox (x y z w d h : ℚ) : Except GeomError (List Triangle) :=
  if w ≤ 0 ∨ d ≤ 0 ∨ h ≤ 0 then .error .configError
  else .ok (boxTriangles x y z w d h)

/-- The `renderConfig` struct embedded in the text and image render
configurations (part_004, lines 73-79 use its fields `startX`, `startY`,
`startZ`, `voxelScale`, `depth`). -/
structure RenderConfig where
  startX : ℚ
  startY : ℚ
  startZ : ℚ
  voxelScale : ℚ
  depth : ℚ
deriving DecidableEq, Repr

/-- The `textRenderConfig` struct (part_004, lines 72-84): an embedded
`renderConfig` plus the text, the canvas dimensions and the font size. -/
structure TextRenderConfig where
  base : RenderConfig
  text : String
  contextWidth : Nat
  contextHeight : Nat
  fontSize : ℚ
deriving Repr

/-- The `imageRenderConfig` struct (part_004, lines 95-105): an embedded
`renderConfig` plus the image path and a height parameter. -/
structure ImageRenderConfig where
  base : RenderConfig
  imagePath : String
  height : ℚ
deriving Repr

/-- Modelled from the spec (§4.4): `renderText` — fails with a
`ConfigError` when `voxelScale ≤ 0` or `depth ≤ 0`; otherwise emits one
box of footprint `voxelScale × voxelScale` and height `depth` for every
canvas pixel the rasterizer (`raster text fontSize px py`, abstracting the
external font library) reports as covered, with the row axis inverted. -/
def renderText (raster : String → ℚ → Nat → Nat → Bool) (config : TextRenderConfig) :
    Except GeomError (List Triangle) :=
  if config.base.voxelScale ≤ 0 ∨ config.base.depth ≤ 0 then .error .configError
  else
    .ok ((List.range config.contextHeight).flatMap fun py =>
      (List.range config.contextWidth).flatMap fun px =>
        if raster config.text config.fontSize px py then
          boxTriangles (config.base.startX + (px : ℚ) * config.base.voxelScale)
            (config.base.startY + ((config.contextHeight : ℚ) - 1 - (py : ℚ)) * config.base.voxelScale)
            config.base.startZ
            config.base.voxelScale config.base.voxelScale config.base.depth
        else [])

/-- Modelled from the spec (§4.4): the voxel scale `Create3DText` uses for
its embossed text, a fixed positive constant. -/
def textVoxelScale : ℚ := 1

/-- Modelled from the spec (§4.4): the off-screen canvas width used by
`Create3DText`, sized to fit the rendered text. -/
def textCanvasWidth : Nat := 200

/-- Modelled from the spec (§4.4): the off-screen canvas height used by
`Create3DText`. -/
def textCanvasHeight : Nat := 50

/-- Modelled from the spec (§4.4): `Create3DText(text, label, fontSize,
depth)` renders the main text and the secondary smaller label (at half the
font size) through `renderText` and concatenates the meshes. -/
def Create3DText (raster : String → ℚ → Nat → Nat → Bool) (text label : String)
    (fontSize depth : ℚ) : Except GeomError (List Triangle) :=
  match renderText raster
      { base := { startX := 0, startY := 0, startZ := 0,
                  voxelScale := textVoxelScale, depth := depth },
        text := text, contextWidth := textCanvasWidth,
        contextHeight := textCanvasHeight, fontSize := fontSize } with
  | .error e => .error e
  | .ok mainTris =>
    match renderText raster
        { base := { startX := 0, startY := (textCanvasHeight : ℚ) * textVoxelScale, startZ := 0,
                    voxelScale := textVoxelScale, depth := depth },
          text := label, contextWidth := textCanvasWidth,
          contextHeight := textCanvasHeight, fontSize := fontSize / 2 } with
    | .error e => .error e
    | .ok labelTris => .ok (mainTris ++ labelTris)

/-- A decoded raster image: dimensions plus the perceptual, alpha-aware
intensity of each pixel in `[0, 1]` (spec §4.5); the decoding itself is
the external image library's concern. -/
structure GoImage where
  width : Nat
  height : Nat
  intensityAt : Nat → Nat → ℚ

/-- Modelled from the spec (§4.5): `renderImage` — fails with an `IOError`
when the path cannot be decoded as a supported raster image (the decoder
is abstracted as `decode`); otherwise maps each pixel's intensity linearly
to a height in `[0, depth]` and emits one box per pixel, skipping pixels
whose height is zero. -/
def renderImage (decode : String → Option GoImage) (config : ImageRenderConfig) :
    Except GeomError (List Triangle) :=
  match decode config.imagePath with
  | none => .error .ioError
  | some img =>
    .ok ((List.range img.height).flatMap fun py =>
      (List.range img.width).flatMap fun px =>
        let h := img.intensityAt px py * config.base.depth
        if h ≤ 0 then []
        else
          boxTriangles (config.base.startX + (px : ℚ) * config.base.voxelScale)
            (config.base.startY + ((img.height : ℚ) - 1 - (py : ℚ)) * config.base.voxelScale)
            config.base.startZ
            config.base.voxelScale config.base.voxelScale h)

/-! ## Height quantizer (spec §4.1; implementation not among the sources) -/

/-- Modelled from the spec (§3): the ordinal `HeightLevel` scale plus the
future/no-data sentinel. -/
inductive HeightLevel where
  | future
  | empty
  | low
  | medium
  | high
deriving DecidableEq, Repr

/-- The ordinal rank of a level; the sentinel carries no height, like the
lowest level. -/
def heightLevelRank : HeightLevel → Nat
  | .future => 0
  | .empty => 0
  | .low => 1
  | .medium => 2
  | .high => 3

/-- Modelled from the spec (§4.1): `quantize(count, contextMax)` with
threshold boundaries at zero and at 1/3 and 2/3 of `contextMax` (compared
exactly: `count ≤ contextMax/3` iff `3*count ≤ contextMax`), the maximum
itself landing on the top level; total for every count and `contextMax`,
including `contextMax = 0`. A cell marked `isFuture` is mapped to the
sentinel by the caller before quantization. -/
def quantize (count contextMax : Nat) : HeightLevel :=
  if count = 0 then .empty
  else if 3 * count ≤ contextMax then .low
  else if 3 * count ≤ 2 * contextMax then .medium
  else .high

/-! ## Normal-magnitude tolerances (from part_004 and spec §3) -/

/-- The acceptance bound of the normal-vector checks in `TestCreate3DText`
and `TestGenerateImageGeometry` (part_004, lines 56 and 242): a magnitude
is accepted unless it is below 0.5 or above 2.0. -/
def testNormalMagnitudeAccepted (m : ℚ) : Prop := ¬(m < 1 / 2 ∨ 2 < m)

/-- The spec's invariant for a normal (§3): length within `eps` of 1. -/
def specNormalMagnitudeOk (eps m : ℚ) : Prop := |m - 1| ≤ eps

/-- The upper end of the normal magnitudes the test suite documents for
`Create3DText` output (part_004, lines 54-55: "The current values are
around 0.69 to 0.83, which suggests they're valid directional vectors but
not normalized"). -/
def documentedTextNormalMagnitude : ℚ := 83 / 100

/-! ## Contribution data (`internal/types`, modelled from the spec §3) -/

/-- Modelled from the spec: `ActivityCell` — a per-day activity count with
its date and future flag (the `types` package itself is not among the
sources; only the fields used by the embedded functions appear). -/
structure ContributionDay where
  contributionCount : Nat
  date : String
  isFuture : Bool
deriving DecidableEq, Repr, Inhabited

/-- One week of the contribution calendar. -/
structure ContributionWeek where
  contributionDays : List ContributionDay
deriving DecidableEq, Repr

/-- The contribution calendar: chronologically ordered weeks. -/
structure ContributionCalendar where
  weeks : List ContributionWeek
deriving DecidableEq, Repr

/-- The `ContributionsCollection` wrapper of the API response. -/
structure ContributionsCollection where
  contributionCalendar : ContributionCalendar
deriving DecidableEq, Repr

/-- The `User` wrapper of the API response. -/
structure ResponseUser where
  contributionsCollection : ContributionsCollection
deriving DecidableEq, Repr

/-- The GitHub API contributions response,
`response.User.ContributionsCollection.ContributionCalendar.Weeks`. -/
structure ContributionsResponse where
  user : ResponseUser
deriving DecidableEq, Repr

/-- `convertResponseToGrid` from `cmd/skyline` (part_001, lines 162-169):
one grid column per week, each column being that week's
`ContributionDays` slice unchanged. -/
def convertResponseToGrid (response : ContributionsResponse) :
    List (List ContributionDay) :=
  (response.user.contributionsCollection.contributionCalendar.weeks).map
    (fun week => week.contributionDays)

/-! ## Skyline orchestration (`cmd/skyline`, part_001 lines 28-159) -/

/-- Errors as `GenerateSkyline` surfaces them: collaborator errors
returned unchanged, collaborator errors wrapped by
`errors.New(errors.NetworkError, msg, err)`, and the function's own
`fmt.Errorf` messages. `ε` is the collaborators' error type. -/
inductive SkyErr (ε : Type) where
  | dep (e : ε)
  | network (msg : String) (cause : ε)
  | message (msg : String)
deriving DecidableEq, Repr

/-- The observable outputs of a `GenerateSkyline` run: `fmt.Println`
calls and the final STL generation call
(`stl.GenerateSTL` / `stl.GenerateSTLRange`). -/
inductive SkylineEvent where
  | println (s : String)
  | stlSingle (grid : List (List ContributionDay)) (path user : String) (year : Int)
  | stlRange (grids : List (List (List ContributionDay))) (path user : String)
      (startYear endYear : Int)
deriving DecidableEq, Repr

/-- Whether an event is one of the two STL generation calls. -/
def SkylineEvent.isStl : SkylineEvent → Bool
  | .println _ => false
  | .stlSingle _ _ _ _ => true
  | .stlRange _ _ _ _ _ => true

/-- The collaborators of `GenerateSkyline` (GitHub client, logger, ASCII
renderer, STL writer, clock), abstracted as data so the orchestration is
a pure function of them. `warning` is the outcome of `log.Warning`
(`none` = the warning was logged successfully); `generateSTL` and
`generateSTLRange` return `none` on success. `emptyBlock` and
`foundationLow` are `ascii.EmptyBlock` and `ascii.FoundationLow`, whose
values live in the `internal/ascii` package. -/
structure SkylineDeps (ε : Type) where
  initClient : Except ε Unit
  debugLog : Option ε
  authUser : Except ε String
  joinYear : String → Except ε Int
  now : GoDate
  fetchContributions : String → Int → Except ε ContributionsResponse
  fetchContributionsForDateRange : String → GoDate → GoDate → Except ε ContributionsResponse
  generateAscii : List (List ContributionDay) → String → Int → Bool → Bool → Except ε String
  warning : Option ε
  emptyBlock : Char
  foundationLow : Char
  generateSTL : List (List ContributionDay) → String → String → Int → Option ε
  generateSTLRange : List (List (List ContributionDay)) → String → String → Int → Int → Option ε

/-- The target-user resolution at the top of `GenerateSkyline` (part_001,
lines 36-45): an empty target falls back to the authenticated user, after
a debug log whose failure is returned directly. -/
def resolveTargetUser {ε : Type} (deps : SkylineDeps ε) (targetUser : String) :
    Except (SkyErr ε) String :=
  if targetUser = "" then
    match deps.debugLog with
    | some e => .error (.dep e)
    | none =>
      match deps.authUser with
      | .error e => .error (.network "failed to get authenticated user" e)
      | .ok username => .ok username
  else .ok targetUser

/-- The `full` handling of `GenerateSkyline` (part_001, lines 47-54):
with `--full` the range becomes join year to the current year. -/
def resolveFullYears {ε : Type} (deps : SkylineDeps ε) (full : Bool) (user : String)
    (startYear endYear : Int) : Except (SkyErr ε) (Int × Int) :=
  if full then
    match deps.joinYear user with
    | .error e => .error (.network "failed to get user join year" e)
    | .ok joinYear => .ok (joinYear, deps.now.year)
  else .ok (startYear, endYear)

/-- The YTD end-date resolution of `GenerateSkyline` (part_001, lines
63-73): parse failure and future dates are errors; an empty `ytdEnd`
means now. -/
def resolveYtdEndDate {ε : Type} (deps : SkylineDeps ε) (ytdEnd : String) :
    Except (SkyErr ε) GoDate :=
  if ytdEnd ≠ "" then
    match goParseDateISO ytdEnd with
    | none => .error (.message "invalid ytd-end date format, expected YYYY-MM-DD")
    | some parsedEnd =>
      if goDateAfter parsedEnd deps.now then
        .error (.message "ytd-end date cannot be in the future")
      else .ok parsedEnd
  else .ok deps.now

/-- The year-line rewrite of the YTD ASCII preview (part_001, lines
92-100): replace the start year with the `start-end` display in the first
line containing it. -/
def ytdRewriteYearLine (asciiArt : String) (startYear : Int) (yearDisplay : String) : String :=
  let ys := toString startYear
  let lines := asciiArt.splitOn "\n"
  let lines :=
    match lines.findIdx? (fun line => goContains line ys) with
    | some i => lines.set i ((lines.getD i "").replace ys yearDisplay)
    | none => lines
  String.intercalate "\n" lines

/-- The header-stripping applied to the ASCII art of every year after the
first (part_001, lines 124-137): drop everything before the first line
that contains `ascii.EmptyBlock` or `ascii.FoundationLow` and is not made
of empty blocks only. -/
def stripAsciiHeader (emptyBlock foundationLow : Char) (asciiArt : String) : String :=
  let lines := asciiArt.splitOn "\n"
  let gridStart :=
    match lines.findIdx? (fun line =>
        (line.contains emptyBlock || line.contains foundationLow)
          && goTrimChar line emptyBlock != "") with
    | some i => i
    | none => 0
  String.intercalate "\n" (lines.drop gridStart)

/-- The years the non-YTD loop of `GenerateSkyline` iterates over:
`startYear, startYear+1, ..., endYear`. -/
def yearList (startYear endYear : Int) : List Int :=
  if startYear > endYear then []
  else (List.range ((endYear - startYear).toNat + 1)).map (fun k => startYear + (k : Int))

/-- The per-year loop of `GenerateSkyline` (part_001, lines 104-140):
fetch the year's contributions (failure aborts, returned unchanged),
convert them to a grid, and generate the ASCII preview — whose failure is
only logged as a warning (a failing warning log aborts); on success the
art is printed, with the header stripped for every year after the first.
Returns the accumulated grids and print events. -/
def skylineYearLoop {ε : Type} (deps : SkylineDeps ε) (user : String) (startYear : Int)
    (artOnly : Bool) :
    List Int → Except (SkyErr ε) (List (List (List ContributionDay)) × List SkylineEvent)
  | [] => .ok ([], [])
  | year :: rest =>
    match deps.fetchContributions user year with
    | .error e => .error (.dep e)
    | .ok response =>
      let contributions := convertResponseToGrid response
      let step : Except (SkyErr ε) (List SkylineEvent) :=
        match deps.generateAscii contributions user year ((year == startYear) && !artOnly)
            (!artOnly) with
        | .error _ =>
          match deps.warning with
          | some warnErr => .error (.dep warnErr)
          | none => .ok []
        | .ok asciiArt =>
          if year == startYear then .ok [.println asciiArt]
          else .ok [.println (stripAsciiHeader deps.emptyBlock deps.foundationLow asciiArt)]
      match step with
      | .error e => .error e
      | .ok evs =>
        match skylineYearLoop deps user startYear artOnly rest with
        | .error e => .error e
        | .ok (grids, events) => .ok (contributions :: grids, evs ++ events)

/-- The tail of `GenerateSkyline` (part_001, lines 143-156): unless
`artOnly`, build the output path and call `stl.GenerateSTL` for a single
non-YTD period and `stl.GenerateSTLRange` otherwise, the STL writer's
error being returned unchanged. -/
def finishSTL {ε : Type} (deps : SkylineDeps ε) (user : String) (startYear endYear : Int)
    (output ytdEnd : String) (artOnly isYTD : Bool)
    (allContributions : List (List (List ContributionDay))) (evs : List SkylineEvent) :
    Except (SkyErr ε) (List SkylineEvent) :=
  if !artOnly then
    let outputPath := utils_GenerateOutputFilename user startYear endYear output ytdEnd deps.now
    match allContributions with
    | [single] =>
      if isYTD then
        match deps.generateSTLRange allContributions outputPath user startYear endYear with
        | some e => .error (.dep e)
        | none => .ok (evs ++ [.stlRange allContributions outputPath user startYear endYear])
      else
        match deps.generateSTL single outputPath user startYear with
        | some e => .error (.dep e)
        | none => .ok (evs ++ [.stlSingle single outputPath user startYear])
    | _ =>
      match deps.generateSTLRange allContributions outputPath user startYear endYear with
      | some e => .error (.dep e)
      | none => .ok (evs ++ [.stlRange allContributions outputPath user startYear endYear])
  else .ok evs

/-- The YTD branch of `GenerateSkyline` (part_001, lines 61-101 plus the
shared tail): fetch one continuous 12-month period, convert it, generate
its preview (failure again only a warning), rewrite the preview's year
line to the `start-end` display, and hand the single grid to the tail
with `isYTD` set. -/
def ytdBranch {ε : Type} (deps : SkylineDeps ε) (user : String) (startYear endYear : Int)
    (artOnly : Bool) (output ytdEnd : String) : Except (SkyErr ε) (List SkylineEvent) :=
  match resolveYtdEndDate deps ytdEnd with
  | .error e => .error e
  | .ok endDate =>
    let startDate := goAddDateMonths endDate (-12)
    match deps.fetchContributionsForDateRange user startDate endDate with
    | .error e => .error (.dep e)
    | .ok response =>
      let contributions := convertResponseToGrid response
      let allContributions := [contributions]
      let yearDisplay := toString startDate.year ++ "-" ++ toString endDate.year
      let step : Except (SkyErr ε) (List SkylineEvent) :=
        match deps.generateAscii contributions user startYear true (!artOnly) with
        | .error _ =>
          match deps.warning with
          | some warnErr => .error (.dep warnErr)
          | none => .ok []
        | .ok asciiArt => .ok [.println (ytdRewriteYearLine asciiArt startYear yearDisplay)]
      match step with
      | .error e => .error e
      | .ok evs => finishSTL deps user startYear endYear output ytdEnd artOnly true
          allContributions evs

/-- `GenerateSkyline` from `cmd/skyline` (part_001, lines 28-159), as a
pure function of its collaborators. `now.AddDate(0,-12,0)` is
`goAddDateMonths deps.now (-12)`, so `isYTD` compares against the year
twelve months before now, exactly as on line 58. -/
def GenerateSkyline {ε : Type} (deps : SkylineDeps ε) (startYear endYear : Int)
    (targetUser : String) (full : Bool) (output : String) (artOnly : Bool)
    (ytdEnd : String) : Except (SkyErr ε) (List SkylineEvent) :=
  match deps.initClient with
  | .error e => .error (.network "failed to initialize GitHub client" e)
  | .ok _ =>
    match resolveTargetUser deps targetUser with
    | .error e => .error e
    | .ok user =>
      match resolveFullYears deps full user startYear endYear with
      | .error e => .error e
      | .ok (sy, ey) =>
        let isYTD := (ey == deps.now.year) && (sy == (goAddDateMonths deps.now (-12)).year)
        if isYTD then ytdBranch deps user sy ey artOnly output ytdEnd
        else
          match skylineYearLoop deps user sy artOnly (yearList sy ey) with
          | .error e => .error e
          | .ok (allContributions, evs) =>
            finishSTL deps user sy ey output ytdEnd artOnly false allContributions evs

/-! ## Theorems for the claims -/

/-- Claim C9: the legacy year-range parsing of the `main` package and the
current `internal/utils` parsing are extensionally equal — for every input
string and the same current year they return the same `(startYear,
endYear)` pair and error exactly together. -/
theorem c9_parseYearRange_equivalent (yearRange : String) (currentYear : Int) :
    main_parseYearRange yearRange currentYear = utils_ParseYearRange yearRange currentYear := rfl

/-- Claim C8: `convertResponseToGrid` returns one column per week of the
response, in the response's (chronological) order, column `i` being week
`i`'s `ContributionDays` sequence unchanged. -/
theorem c8_convertResponseToGrid_preserves_weeks (response : ContributionsResponse) :
    (convertResponseToGrid response).length
        = response.user.contributionsCollection.contributionCalendar.weeks.length
    ∧ ∀ i : Nat,
        (convertResponseToGrid response)[i]?
          = (response.user.contributionsCollection.contributionCalendar.weeks[i]?).map
              (fun week => week.contributionDays) := by
  refine ⟨by simp [convertResponseToGrid], fun i => ?_⟩
  simp [convertResponseToGrid]

/-- Claim C4: the height quantizer is total (a Lean function on all of
`ℕ × ℕ`) and, for every `contextMax > 0`, maps `0` to the lowest
non-future level and `contextMax` to the highest level; for fixed
`contextMax` it is non-decreasing in the count. -/
theorem c4_quantize_endpoints_monotone :
    (∀ contextMax : Nat, 0 < contextMax →
        quantize 0 contextMax = HeightLevel.empty
        ∧ quantize contextMax contextMax = HeightLevel.high)
    ∧ ∀ contextMax c1 c2 : Nat, c1 ≤ c2 →
        heightLevelRank (quantize c1 contextMax) ≤ heightLevelRank (quantize c2 contextMax) := by
  constructor
  · intro contextMax hpos
    refine ⟨by simp [quantize], ?_⟩
    simp only [quantize]
    rw [if_neg (by omega), if_neg (by omega), if_neg (by omega)]
  · intro contextMax c1 c2 h
    simp only [quantize]
    split_ifs <;> simp [heightLevelRank] <;> omega

/-- Witness for C4 at concrete inputs. -/
theorem c4_quantize_witness :
    (0 < 5 ∧ quantize 0 5 = HeightLevel.empty ∧ quantize 5 5 = HeightLevel.high)
    ∧ (2 ≤ 6 ∧ heightLevelRank (quantize 2 7) ≤ heightLevelRank (quantize 6 7)) :=
  ⟨⟨by decide, c4_quantize_endpoints_monotone.1 5 (by decide)⟩,
   ⟨by decide, c4_quantize_endpoints_monotone.2 7 2 6 (by decide)⟩⟩

/-- Claim C5: `renderText` returns an error (a `ConfigError`) for every
configuration with `voxelScale ≤ 0` or `depth ≤ 0`. -/
theorem c5_renderText_invalid_config (raster : String → ℚ → Nat → Nat → Bool)
    (config : TextRenderConfig)
    (h : config.base.voxelScale ≤ 0 ∨ config.base.depth ≤ 0) :
    renderText raster config = .error .configError := by
  unfold renderText
  rw [if_pos h]

/-- Witness for C5 at the invalid configuration of `TestRenderText`
(part_004, lines 72-84: `voxelScale = 0`, `depth = 1`). -/
theorem c5_renderText_witness :
    ((0 : ℚ) ≤ 0 ∨ (1 : ℚ) ≤ 0)
    ∧ renderText (fun _ _ _ _ => false)
        { base := { startX := 0, startY := 0, startZ := 0, voxelScale := 0, depth := 1 },
          text := "test", contextWidth := 100, contextHeight := 100, fontSize := 10 }
        = .error .configError :=
  ⟨Or.inl le_rfl, c5_renderText_invalid_config _ _ (Or.inl le_rfl)⟩

/-- Claim C6: `renderImage` returns an error (an `IOError`) for every
image path the decoder cannot decode. -/
theorem c6_renderImage_undecodable (decode : String → Option GoImage)
    (config : ImageRenderConfig) (h : decode config.imagePath = none) :
    renderImage decode config = .error .ioError := by
  unfold renderImage
  rw [h]

/-- Witness for C6 at the configuration of `TestRenderImage` (part_004,
lines 95-105: path `"nonexistent.png"`, which the decoder rejects). -/
theorem c6_renderImage_witness :
    ((fun _ : String => (none : Option GoImage)) "nonexistent.png" = none)
    ∧ renderImage (fun _ => none)
        { base := { startX := 0, startY := 0, startZ := 0, voxelScale := 1, depth := 1 },
          imagePath := "nonexistent.png", height := 10 }
        = .error .ioError :=
  ⟨rfl, c6_renderImage_undecodable _ _ rfl⟩

/-- Claim C1, settled against the repository's own test suite: the normal
magnitudes `Create3DText` actually produces (documented by the test
comment as roughly 0.69 to 0.83) are accepted by the tests' loosened
bound of `[0.5, 2.0]` but violate the spec's `length == 1 ± eps`
invariant for every tolerance `eps` smaller than `0.17`. -/
theorem c1_text_normals_not_unit (eps : ℚ) (h : eps < 17 / 100) :
    testNormalMagnitudeAccepted documentedTextNormalMagnitude
    ∧ ¬ specNormalMagnitudeOk eps documentedTextNormalMagnitude := by
  constructor
  · unfold testNormalMagnitudeAccepted documentedTextNormalMagnitude
    norm_num
  · unfold specNormalMagnitudeOk documentedTextNormalMagnitude
    intro habs
    rw [show (83 / 100 : ℚ) - 1 = -(17 / 100) by norm_num, abs_neg,
      abs_of_pos (by norm_num : (0 : ℚ) < 17 / 100)] at habs
    linarith

/-- Witness for C1 at the concrete tolerance 0.1. -/
theorem c1_text_normals_witness :
    (1 / 10 : ℚ) < 17 / 100
    ∧ (testNormalMagnitudeAccepted documentedTextNormalMagnitude
       ∧ ¬ specNormalMagnitudeOk (1 / 10) documentedTextNormalMagnitude) :=
  ⟨by norm_num, c1_text_normals_not_unit (1 / 10) (by norm_num)⟩

/-- Counterexample for claim C2 as stated: the current
`utils.GenerateOutputFilename` returns an explicit path that does not end
in `.stl` unchanged, instead of appending the extension. -/
theorem c2_counterexample_no_extension_appended :
    utils_GenerateOutputFilename "octocat" 2024 2024 "skyline-model" "" ⟨2026, 1, 15⟩
        = "skyline-model"
    ∧ utils_GenerateOutputFilename "octocat" 2024 2024 "skyline-model" "" ⟨2026, 1, 15⟩
        ≠ "skyline-model.stl" := by
  constructor
  · rfl
  · decide

/-- Claim C2 as amended: only the legacy `main` package's
`generateOutputFilename` appends `".stl"` to an explicit output path that
does not already end in `".stl"` case-insensitively (returning it
unchanged otherwise); the current `utils.GenerateOutputFilename` returns
every explicit path unchanged. -/
theorem c2_amended_explicit_path (path user startDate endDate ytdEnd : String)
    (startYear endYear : Int) (now : GoDate) (h : path ≠ "") :
    main_generateOutputFilename path user startYear endYear startDate endDate
        = (if (path.toLower).endsWith ".stl" then path else path ++ ".stl")
    ∧ utils_GenerateOutputFilename user startYear endYear path ytdEnd now = path := by
  constructor
  · unfold main_generateOutputFilename
    rw [if_pos h]
    cases hE : (path.toLower).endsWith ".stl" <;> simp [hE]
  · unfold utils_GenerateOutputFilename
    rw [if_pos h]

/-- Witness for C2 (amended) at a concrete explicit path. -/
theorem c2_amended_witness :
    ("model" : String) ≠ ""
    ∧ (main_generateOutputFilename "model" "octocat" 2024 2024 "" ""
          = (if ("model".toLower).endsWith ".stl" then "model" else "model" ++ ".stl")
       ∧ utils_GenerateOutputFilename "octocat" 2024 2024 "model" "" ⟨2026, 1, 15⟩
          = "model") :=
  ⟨by decide,
   c2_amended_explicit_path "model" "octocat" "" "" "" 2024 2024 ⟨2026, 1, 15⟩ (by decide)⟩

/-- Claim C7: for every valid (positive) font size and positive depth,
`Create3DText` succeeds on an empty main text string — an empty input is
not an error condition. -/
theorem c7_create3DText_empty_text_ok (raster : String → ℚ → Nat → Nat → Bool)
    (label : String) (fontSize depth : ℚ) (_hFont : 0 < fontSize) (hDepth : 0 < depth) :
    ∃ tris, Create3DText raster "" label fontSize depth = .ok tris := by
  have hv : ¬(textVoxelScale ≤ (0 : ℚ) ∨ depth ≤ 0) := by
    push_neg
    exact ⟨by norm_num [textVoxelScale], hDepth⟩
  have hRender : ∀ (text : String) (cw ch : Nat) (fs sx sy : ℚ),
      ∃ ts, renderText raster
        { base := { startX := sx, startY := sy, startZ := 0,
                    voxelScale := textVoxelScale, depth := depth },
          text := text, contextWidth := cw, contextHeight := ch, fontSize := fs }
        = .ok ts := by
    intro text cw ch fs sx sy
    exact ⟨_, by unfold renderText; rw [if_neg hv]⟩
  obtain ⟨ts1, h1⟩ := hRender "" textCanvasWidth textCanvasHeight fontSize 0 0
  obtain ⟨ts2, h2⟩ := hRender label textCanvasWidth textCanvasHeight (fontSize / 2) 0
    ((textCanvasHeight : ℚ) * textVoxelScale)
  exact ⟨ts1 ++ ts2, by unfold Create3DText; rw [h1, h2]⟩

/-- Witness for C7 at the arguments of `TestCreate3DText`'s empty-text
case (part_004, line 32: font size 100, depth 5). -/
theorem c7_create3DText_witness :
    (0 : ℚ) < 100 ∧ (0 : ℚ) < 5
    ∧ ∃ tris, Create3DText (fun _ _ _ _ => true) "" "2023" 100 5 = .ok tris :=
  ⟨by norm_num, by norm_num,
   c7_create3DText_empty_text_ok (fun _ _ _ _ => true) "2023" 100 5 (by norm_num) (by norm_num)⟩

/-- Claim C3: with no explicit output path, `GenerateOutputFilename`
returns a default name of the form
`<username>-contributions-<range>.stl`, where the range part is the YTD
end date in YTD mode, the single year when the range is one year, and the
`start-end` pair otherwise. -/
theorem c3_default_filename (username : String) (startYear endYear : Int)
    (ytdEnd : String) (now : GoDate) :
    ∃ core : String,
      utils_GenerateOutputFilename username startYear endYear "" ytdEnd now
          = username ++ "-contributions-" ++ core ++ ".stl"
      ∧ (((endYear == now.year) && (startYear == (goAddDateMonths now (-12)).year)) = true →
          core = "ytd-" ++ formatDateISO (utilsResolveYtdEnd ytdEnd now))
      ∧ (((endYear == now.year) && (startYear == (goAddDateMonths now (-12)).year)) = false →
          startYear = endYear → core = toString startYear)
      ∧ (((endYear == now.year) && (startYear == (goAddDateMonths now (-12)).year)) = false →
          startYear ≠ endYear → core = toString startYear ++ "-" ++ toString endYear) := by
  have hsplit : ∀ u f : String,
      u ++ "-contributions-ytd-" ++ f ++ ".stl"
        = u ++ "-contributions-" ++ ("ytd-" ++ f) ++ ".stl" := by
    intro u f
    have hBC : ("-contributions-" : String) ++ "ytd-" = "-contributions-ytd-" := rfl
    rw [← hBC]
    simp only [String.append_assoc]
  simp only [utils_GenerateOutputFilename, ne_eq, not_true_eq_false, if_false,
    reduceIte]
  cases hY : ((endYear == now.year) && (startYear == (goAddDateMonths now (-12)).year)) with
  | true =>
    refine ⟨"ytd-" ++ formatDateISO (utilsResolveYtdEnd ytdEnd now), ?_, ?_, ?_, ?_⟩
    · simp only [if_true, reduceIte]
      exact hsplit username (formatDateISO (utilsResolveYtdEnd ytdEnd now))
    · intro _; rfl
    · intro hfalse; cases hfalse
    · intro hfalse; cases hfalse
  | false =>
    by_cases hEq : startYear = endYear
    · refine ⟨toString startYear, ?_, ?_, ?_, ?_⟩
      · simp [hEq]
      · intro htrue; cases htrue
      · intro _ _; rfl
      · intro _ hne; exact absurd hEq hne
    · refine ⟨toString startYear ++ "-" ++ toString endYear, ?_, ?_, ?_, ?_⟩
      · have hb : (startYear == endYear) = false := by
          simp [hEq]
        simp only [if_false, hb, Bool.false_eq_true, reduceIte]
        rw [String.append_assoc (username ++ "-contributions-"),
          String.append_assoc (username ++ "-contributions-")]
      · intro htrue; cases htrue
      · intro _ hcontra; exact absurd hcontra hEq
      · intro _ _; rfl

/-- Witness for C3 at concrete arguments (single-year range). -/
theorem c3_default_filename_witness :
    ∃ core : String,
      utils_GenerateOutputFilename "octocat" 2024 2024 "" "" ⟨2026, 1, 15⟩
          = "octocat" ++ "-contributions-" ++ core ++ ".stl"
      ∧ ((((2024 : Int) == (GoDate.mk 2026 1 15).year)
            && ((2024 : Int) == (goAddDateMonths ⟨2026, 1, 15⟩ (-12)).year)) = true →
          core = "ytd-" ++ formatDateISO (utilsResolveYtdEnd "" ⟨2026, 1, 15⟩))
      ∧ ((((2024 : Int) == (GoDate.mk 2026 1 15).year)
            && ((2024 : Int) == (goAddDateMonths ⟨2026, 1, 15⟩ (-12)).year)) = false →
          (2024 : Int) = 2024 → core = toString (2024 : Int))
      ∧ ((((2024 : Int) == (GoDate.mk 2026 1 15).year)
            && ((2024 : Int) == (goAddDateMonths ⟨2026, 1, 15⟩ (-12)).year)) = false →
          (2024 : Int) ≠ 2024 →
          core = toString (2024 : Int) ++ "-" ++ toString (2024 : Int)) :=
  c3_default_filename "octocat" 2024 2024 "" ⟨2026, 1, 15⟩

/-- Helper for C10: when every fetch in the year list succeeds and the
warning log works, the per-year loop never fails — whatever the ASCII
generator does. -/
theorem skylineYearLoop_ok {ε : Type} (deps : SkylineDeps ε) (user : String)
    (startYear : Int) (artOnly : Bool) (years : List Int)
    (hFetch : ∀ y ∈ years, ∃ r, deps.fetchContributions user y = .ok r)
    (hWarn : deps.warning = none) :
    ∃ grids evs, skylineYearLoop deps user startYear artOnly years = .ok (grids, evs) := by
  induction years with
  | nil => exact ⟨[], [], rfl⟩
  | cons year rest ih =>
    obtain ⟨r, hr⟩ := hFetch year (List.mem_cons_self year rest)
    obtain ⟨grids, evs, hrest⟩ := ih (fun y hy => hFetch y (List.mem_cons_of_mem _ hy))
    cases hA : deps.generateAscii (convertResponseToGrid r) user year
        ((year == startYear) && !artOnly) (!artOnly) with
    | error e =>
      exact ⟨convertResponseToGrid r :: grids, [] ++ evs,
        by simp only [skylineYearLoop, hr, hA, hWarn, hrest]⟩
    | ok asciiArt =>
      cases hc : (year == startYear) with
      | true =>
        simp only [hc, Bool.true_and] at hA
        exact ⟨convertResponseToGrid r :: grids, [SkylineEvent.println asciiArt] ++ evs,
          by simp [skylineYearLoop, hr, hc, hA, hrest]⟩
      | false =>
        simp only [hc, Bool.false_and] at hA
        exact ⟨convertResponseToGrid r :: grids,
          [SkylineEvent.println
            (stripAsciiHeader deps.emptyBlock deps.foundationLow asciiArt)] ++ evs,
          by simp [skylineYearLoop, hr, hc, hA, hrest]⟩

/-- Claim C10: in `GenerateSkyline`, a failing ASCII preview is only a
warning — with the warning log succeeding, every fetch succeeding, the
STL writer succeeding, and the run not in YTD mode, the run completes
without error and still performs the STL generation, for any behaviour of
the ASCII generator (including failing on every year). -/
theorem c10_ascii_failure_nonfatal {ε : Type} (deps : SkylineDeps ε)
    (startYear endYear : Int) (targetUser output ytdEnd : String)
    (hInit : deps.initClient = .ok ())
    (hUser : targetUser ≠ "")
    (hNotYTD : ((endYear == deps.now.year)
        && (startYear == (goAddDateMonths deps.now (-12)).year)) = false)
    (hFetch : ∀ y, ∃ r, deps.fetchContributions targetUser y = .ok r)
    (hWarn : deps.warning = none)
    (hStlSingle : ∀ g p u y, deps.generateSTL g p u y = none)
    (hStlRange : ∀ g p u a b, deps.generateSTLRange g p u a b = none) :
    ∃ evs, GenerateSkyline deps startYear endYear targetUser false output false ytdEnd
        = .ok evs
      ∧ ∃ e ∈ evs, SkylineEvent.isStl e = true := by
  obtain ⟨grids, evs, hloop⟩ := skylineYearLoop_ok deps targetUser startYear false
    (yearList startYear endYear) (fun y _ => hFetch y) hWarn
  have hresolve : resolveTargetUser deps targetUser = .ok targetUser := by
    unfold resolveTargetUser
    rw [if_neg hUser]
  have hfull : resolveFullYears deps false targetUser startYear endYear
      = .ok (startYear, endYear) := rfl
  simp only [GenerateSkyline, hInit, hresolve, hfull, hNotYTD, Bool.false_eq_true,
    if_false, hloop, finishSTL, Bool.not_false, if_true]
  cases grids with
  | nil =>
    refine ⟨evs ++ [SkylineEvent.stlRange []
        (utils_GenerateOutputFilename targetUser startYear endYear output ytdEnd deps.now)
        targetUser startYear endYear], ?_, ?_⟩
    · simp [hStlRange]
    · exact ⟨_, List.mem_append_right _ (List.mem_singleton_self _), rfl⟩
  | cons g rest =>
    cases rest with
    | nil =>
      refine ⟨evs ++ [SkylineEvent.stlSingle g
          (utils_GenerateOutputFilename targetUser startYear endYear output ytdEnd deps.now)
          targetUser startYear], ?_, ?_⟩
      · simp [hStlSingle]
      · exact ⟨_, List.mem_append_right _ (List.mem_singleton_self _), rfl⟩
    | cons g2 rest2 =>
      refine ⟨evs ++ [SkylineEvent.stlRange (g :: g2 :: rest2)
          (utils_GenerateOutputFilename targetUser startYear endYear output ytdEnd deps.now)
          targetUser startYear endYear], ?_, ?_⟩
      · simp [hStlRange]
      · exact ⟨_, List.mem_append_right _ (List.mem_singleton_self _), rfl⟩

/-- A concrete contributions response used by the C10 witness. -/
def c10SampleResponse : ContributionsResponse :=
  ⟨⟨⟨⟨[⟨[⟨3, "2024-01-01", false⟩]⟩]⟩⟩⟩⟩

/-- Concrete collaborators for the C10 witness: everything succeeds
except the ASCII generator, which always fails. -/
def c10Deps : SkylineDeps String :=
  { initClient := .ok ()
    debugLog := none
    authUser := .ok "octocat"
    joinYear := fun _ => .ok 2015
    now := ⟨2026, 1, 15⟩
    fetchContributions := fun _ _ => .ok c10SampleResponse
    fetchContributionsForDateRange := fun _ _ _ => .ok c10SampleResponse
    generateAscii := fun _ _ _ _ _ => .error "ascii preview failed"
    warning := none
    emptyBlock := ' '
    foundationLow := '-'
    generateSTL := fun _ _ _ _ => none
    generateSTLRange := fun _ _ _ _ _ => none }

/-- Witness for C10: with the always-failing ASCII generator of
`c10Deps`, the 2023-2024 run still completes and emits an STL call. -/
theorem c10_ascii_failure_witness :
    ∃ evs, GenerateSkyline c10Deps 2023 2024 "octocat" false "" false ""
        = .ok evs
      ∧ ∃ e ∈ evs, SkylineEvent.isStl e = true :=
  c10_ascii_failure_nonfatal c10Deps 2023 2024 "octocat" "" ""
    rfl (by decide) (by decide) (fun y => ⟨c10SampleResponse, rfl⟩) rfl
    (fun _ _ _ _ => rfl) (fun _ _ _ _ _ => rfl)
